import Mathlib

/-!
# Verification development for the `sovereign_privacy_ai` privacy control plane

A shallow embedding in Lean 4 of the Rust modules under
`apps/desktop/src-tauri/src/`, together with theorems about the
anonymization engine, the backend router, the local inference host, the
re-hydration engine and the crypto boundary.

Modelling conventions:
* Rust `String`/`&str` is modelled by Lean `String`; the string algorithms
  (`str::replace`, `str::contains`) are re-implemented on `List Char` with
  Rust's semantics (left-to-right non-overlapping replacement; an empty
  pattern matches at every char boundary).
* Machine floats (`f32` confidence scores) are modelled by `ℚ`; the code
  only compares them with `>=`.
* External library calls (the `regex` crate, the AEAD cipher, UUID and
  clock sources) are oracle parameters of the embedding: the repository
  treats them as black boxes, and every theorem quantifies over them.
-/

set_option maxRecDepth 100000

namespace SovereignPrivacy

/-! ## Rust string primitives -/

/-- Worker for `replaceAllL`: structural recursion on a fuel bound that
dominates the length of the remaining input (each step consumes at least
one char, so the fuel never runs out when started at the input length). -/
def replaceAllGo (pat rep : List Char) : Nat → List Char → List Char
  | _, [] => if pat.isEmpty then rep else []
  | 0, s => s
  | fuel + 1, c :: rest =>
    if pat.isEmpty then rep ++ c :: replaceAllGo pat rep fuel rest
    else if pat.isPrefixOf (c :: rest) then
      rep ++ replaceAllGo pat rep fuel ((c :: rest).drop pat.length)
    else
      c :: replaceAllGo pat rep fuel rest

/-- Rust `str::replace`: scan left to right; at each position, if the
pattern is a prefix of the remaining input, emit the replacement and skip
the pattern, otherwise copy one char.  An empty pattern matches at every
char boundary (as `str::match_indices` does). -/
def replaceAllL (s pat rep : List Char) : List Char :=
  replaceAllGo pat rep s.length s

/-- Rust `str::replace` lifted to `String`. -/
def rreplace (s pat rep : String) : String :=
  ⟨replaceAllL s.data pat.data rep.data⟩

/-- Substring test on char lists (Rust `str::contains`). -/
def isInfixOfL (pat : List Char) : List Char → Bool
  | [] => pat.isEmpty
  | c :: rest => pat.isPrefixOf (c :: rest) || isInfixOfL pat rest

/-- Rust `str::contains` with a string pattern. -/
def rcontains (s pat : String) : Bool :=
  isInfixOfL pat.data s.data

/-- Rust `str::ends_with` with a string pattern. -/
def rendsWith (s pat : String) : Bool :=
  pat.data.isSuffixOf s.data

/-- Rust `str::to_uppercase` (ASCII categories only appear in this code). -/
def rtoUpper (s : String) : String :=
  ⟨s.data.map Char.toUpper⟩

/-- Rust `str::to_lowercase` (ASCII categories only appear in this code). -/
def rtoLower (s : String) : String :=
  ⟨s.data.map Char.toLower⟩

/-! ## Local inference host (`llama_backend.rs`) — prompt preparation

`run_inference` tokenizes the prompt, truncates to the most recent
`ctx_size - 64` tokens when too long, and fails when nothing remains. -/

/-- Error kinds of `inference.rs::InferenceError` that the embedded
fragments can produce. -/
inductive InferenceError where
  | ModelNotFound (msg : String)
  | InferenceFailed (msg : String)
  deriving Repr, DecidableEq

/-- The prompt-truncation step of `run_inference`
(`llama_backend.rs:469-476`): `max_prompt = ctx_size - 64`; when the token
list is longer, keep only the last `max_prompt` tokens. -/
def truncate_prompt (ctx_size : Nat) (tokens : List Int) : List Int :=
  let max_prompt := ctx_size - 64
  if tokens.length > max_prompt then
    tokens.drop (tokens.length - max_prompt)
  else
    tokens

/-- The empty-prompt guard of `run_inference` (`llama_backend.rs:479-481`)
composed with the truncation step. -/
def trim_prompt_checked (ctx_size : Nat) (tokens : List Int) :
    Except InferenceError (List Int) :=
  let trimmed := truncate_prompt ctx_size tokens
  if trimmed.isEmpty then
    .error (.InferenceFailed "Empty prompt after tokenization")
  else
    .ok trimmed

/-! ## Local inference host — repetition guard (`llama_backend.rs:527-567`)

The generation loop appends each sampled token's bytes to `output_bytes`
and then runs the repetition check.  The guard state is the byte buffer,
the consecutive-repeat counter `rep_count`, and whether generation was
stopped.  Bytes are modelled as `Nat`. -/

/-- `let rep_window: usize = 40;` -/
def rep_window : Nat := 40

/-- Guard state carried across generated tokens. -/
structure RepState where
  out : List Nat
  rep_count : Nat
  stopped : Bool
  deriving Repr, DecidableEq

/-- One generation step restricted to the byte-output and repetition
logic: append the token's bytes, then (when at least `2 * rep_window`
bytes exist) compare the last window against the preceding one, bump or
reset `rep_count`, and stop — truncating both windows off — when the
counter reaches 3.  A stopped state absorbs further chunks (the Rust loop
has exited). -/
def repStep (s : RepState) (chunk : List Nat) : RepState :=
  if s.stopped then s
  else
    let out := s.out ++ chunk
    if out.length ≥ rep_window * 2 then
      let len := out.length
      let last := out.drop (len - rep_window)
      let prev := (out.drop (len - rep_window * 2)).take rep_window
      if last = prev then
        let rc := s.rep_count + 1
        if rc ≥ 3 then ⟨out.take (len - rep_window * 2), rc, true⟩
        else ⟨out, rc, false⟩
      else ⟨out, 0, false⟩
    else ⟨out, s.rep_count, false⟩

/-- The byte-level trace of a whole generation: fold the guard over the
per-token byte chunks, starting from an empty buffer. -/
def runGuard (chunks : List (List Nat)) : RepState :=
  chunks.foldl repStep ⟨[], 0, false⟩

/-! ## Local inference host — model registry and `ensure_model`
(`llama_backend.rs:23-98, 649-667`) -/

/-- `llama_backend.rs::LocalModelInfo`. -/
structure LocalModelInfo where
  id : String
  name : String
  filename : String
  url : String
  size_bytes : Nat
  ctx_size : Nat
  description : String
  speed_tier : String
  intelligence_tier : String
  is_downloaded : Bool
  local_path : Option String
  deriving Repr, DecidableEq

/-- `llama_backend.rs::local_model_registry` — the static registry of
available models (smallest → largest). -/
def local_model_registry : List LocalModelInfo :=
  [ { id := "qwen3-0.6b"
    , name := "Qwen3 0.6B (Ultra-Light)"
    , filename := "Qwen3-0.6B-Q4_K_M.gguf"
    , url := "https://huggingface.co/unsloth/Qwen3-0.6B-GGUF/resolve/main/Qwen3-0.6B-Q4_K_M.gguf"
    , size_bytes := 530000000
    , ctx_size := 1024
    , description := "Fastest, lowest RAM. Good for simple Q&A."
    , speed_tier := "very-fast"
    , intelligence_tier := "good"
    , is_downloaded := false
    , local_path := none }
  , { id := "qwen3-1.7b"
    , name := "Qwen3 1.7B (Light)"
    , filename := "Qwen3-1.7B-Q4_K_M.gguf"
    , url := "https://huggingface.co/unsloth/Qwen3-1.7B-GGUF/resolve/main/Qwen3-1.7B-Q4_K_M.gguf"
    , size_bytes := 1200000000
    , ctx_size := 1024
    , description := "Good balance of speed and quality. Recommended for most users."
    , speed_tier := "fast"
    , intelligence_tier := "high"
    , is_downloaded := false
    , local_path := none }
  , { id := "qwen3-4b"
    , name := "Qwen3 4B (Medium)"
    , filename := "Qwen3-4B-Q4_K_M.gguf"
    , url := "https://huggingface.co/unsloth/Qwen3-4B-GGUF/resolve/main/Qwen3-4B-Q4_K_M.gguf"
    , size_bytes := 2700000000
    , ctx_size := 2048
    , description := "Higher quality responses. Needs ~4 GB RAM."
    , speed_tier := "medium"
    , intelligence_tier := "high"
    , is_downloaded := false
    , local_path := none }
  , { id := "qwen3-8b"
    , name := "Qwen3 8B (Full)"
    , filename := "Qwen3-8B-Q4_K_M.gguf"
    , url := "https://huggingface.co/Qwen/Qwen3-8B-GGUF/resolve/6a569868d07d3bd59e8b97fb001bf8c0b254bb20/Qwen3-8B-Q4_K_M.gguf"
    , size_bytes := 5030000000
    , ctx_size := 2048
    , description := "Best quality. Needs ~7 GB RAM. Slower on CPU."
    , speed_tier := "slow"
    , intelligence_tier := "very-high"
    , is_downloaded := false
    , local_path := none } ]

/-- What `ensure_model` does: the filesystem check and the download are
side-effecting, so the embedding records which action the function takes. -/
inductive EnsureOutcome where
  | alreadyDownloaded
  | download (id : String)
  | failed (e : InferenceError)
  deriving Repr, DecidableEq

/-- `llama_backend.rs::ensure_model`, parameterized by the
`is_file_downloaded` filesystem probe.  Looks the name up in the registry
by id or filename; known-and-present returns immediately, known-but-absent
downloads by id; an unknown name falls back to downloading `qwen3-8b` when
it is empty or the legacy `Qwen3-8B-Q4_K_M.gguf` filename, and otherwise
fails with `ModelNotFound`. -/
def ensure_model (is_file_downloaded : String → Bool) (model_name : String) :
    EnsureOutcome :=
  match local_model_registry.find?
      (fun m => m.id == model_name || m.filename == model_name) with
  | some info =>
      if is_file_downloaded info.filename then .alreadyDownloaded
      else .download info.id
  | none =>
      if model_name == "" || model_name == "Qwen3-8B-Q4_K_M.gguf" then
        .download "qwen3-8b"
      else
        .failed (.ModelNotFound ("Unknown model: " ++ model_name))

/-- Does the outcome fail with a model-not-found error? -/
def isModelNotFound : EnsureOutcome → Bool
  | .failed (.ModelNotFound _) => true
  | _ => false

/-! ## Backend router (`backend_routing.rs`, persona from `db.rs`) -/

/-- `db.rs::Persona`. -/
structure Persona where
  id : String
  name : String
  description : String
  system_prompt : String
  voice_id : String
  preferred_model_id : String
  temperature : ℚ
  max_tokens : Int
  is_built_in : Bool
  created_at : String
  updated_at : String
  enable_local_anonymizer : Bool
  preferred_backend : String
  anonymization_mode : String
  local_ollama_model : Option String
  deriving Repr, DecidableEq

/-- `backend_routing.rs::BackendType`. -/
inductive BackendType where
  | Nebius
  | Ollama
  | Hybrid
  deriving Repr, DecidableEq

/-- `backend_routing.rs::AnonymizationMode`. -/
inductive AnonymizationMode where
  | None
  | Optional
  | Required
  deriving Repr, DecidableEq

/-- `AnonymizationMode::from_string`: `"optional"` and `"required"` parse
to themselves, everything else to `None`. -/
def AnonymizationMode.from_string (s : String) : AnonymizationMode :=
  if s == "optional" then .Optional
  else if s == "required" then .Required
  else .None

/-- `matches!(mode, AnonymizationMode::Required)`. -/
def AnonymizationMode.isRequired : AnonymizationMode → Bool
  | .Required => true
  | _ => false

/-- The `match` used by the hybrid branch when formatting its reason. -/
def AnonymizationMode.asStr : AnonymizationMode → String
  | .Required => "required"
  | .Optional => "optional"
  | .None => "none"

/-- `backend_routing.rs::ContentMode`. -/
inductive ContentMode where
  | FullText
  | AttributesOnly
  deriving Repr, DecidableEq

/-- `backend_routing.rs::FallbackEvent`. -/
inductive FallbackEvent where
  | None
  | OllamaUnavailable
  | AnonymizationFailed
  | Blocked (reason : String)
  deriving Repr, DecidableEq

/-- `backend_routing.rs::BackendDecision`. -/
structure BackendDecision where
  backend : BackendType
  anonymize : Bool
  model : Option String
  reason : String
  content_mode : ContentMode
  fallback : FallbackEvent
  is_safe : Bool
  deriving Repr, DecidableEq

/-- `backend_routing.rs::make_routing_decision`, parameterized by the
result of the `ollama_client.is_available()` probe.  (The `_request_text`
argument is unused by the source and omitted.) -/
def make_routing_decision (persona : Persona) (ollama_available : Bool) :
    BackendDecision :=
  let backend_str := rtoLower persona.preferred_backend
  let anonymization_mode :=
    AnonymizationMode.from_string persona.anonymization_mode
  let enable_anonymization := persona.enable_local_anonymizer
  let content_mode :=
    if anonymization_mode.isRequired && backend_str == "hybrid" then
      ContentMode.AttributesOnly
    else
      ContentMode.FullText
  if backend_str == "nebius" then
    if anonymization_mode.isRequired && enable_anonymization then
      { backend := .Nebius
      , anonymize := false
      , model := some persona.preferred_model_id
      , reason := "Cloud direct with attributes-only (required privacy mode)"
      , content_mode := .AttributesOnly
      , fallback := .None
      , is_safe := true }
    else
      { backend := .Nebius
      , anonymize := false
      , model := some persona.preferred_model_id
      , reason := "Cloud direct (fastest)"
      , content_mode := .FullText
      , fallback := .None
      , is_safe := true }
  else if backend_str == "ollama" then
    if !ollama_available then
      match anonymization_mode with
      | .Required =>
        { backend := .Ollama
        , anonymize := false
        , model := none
        , reason := "BLOCKED: Ollama service required but unavailable"
        , content_mode := .FullText
        , fallback := .Blocked "Ollama service unavailable"
        , is_safe := false }
      | _ =>
        { backend := .Nebius
        , anonymize := false
        , model := some persona.preferred_model_id
        , reason := "Fallback to cloud (Ollama unavailable)"
        , content_mode := .FullText
        , fallback := .OllamaUnavailable
        , is_safe := true }
    else
      { backend := .Ollama
      , anonymize := false
      , model := some (persona.local_ollama_model.getD "mistral:7b-instruct-q5_K_M")
      , reason := "Local inference (maximum privacy)"
      , content_mode := .FullText
      , fallback := .None
      , is_safe := true }
  else
    if !ollama_available && enable_anonymization then
      match anonymization_mode with
      | .Required =>
        { backend := .Hybrid
        , anonymize := false
        , model := none
        , reason := "BLOCKED: Anonymization required but Ollama unavailable"
        , content_mode := .FullText
        , fallback := .Blocked "Cannot anonymize without Ollama"
        , is_safe := false }
      | .Optional =>
        { backend := .Nebius
        , anonymize := false
        , model := some persona.preferred_model_id
        , reason := "Fallback to cloud with attributes-only (Ollama unavailable)"
        , content_mode := .AttributesOnly
        , fallback := .OllamaUnavailable
        , is_safe := true }
      | .None =>
        { backend := .Nebius
        , anonymize := false
        , model := some persona.preferred_model_id
        , reason := "Cloud direct (no anonymization configured)"
        , content_mode := .FullText
        , fallback := .None
        , is_safe := true }
    else
      { backend := .Hybrid
      , anonymize := enable_anonymization
      , model := some persona.preferred_model_id
      , reason := "Hybrid: local anonymization + cloud API (mode: "
          ++ anonymization_mode.asStr ++ ")"
      , content_mode := content_mode
      , fallback := .None
      , is_safe := true }

/-- `backend_routing.rs::can_proceed`. -/
def can_proceed (decision : BackendDecision) : Bool :=
  decision.is_safe

/-- A persona with direct-cloud backend but required anonymization: the
configuration the router degrades to attributes-only instead of blocking. -/
def nebius_required_persona : Persona :=
  { id := "p1"
  , name := "Test"
  , description := ""
  , system_prompt := ""
  , voice_id := ""
  , preferred_model_id := "meta-llama/Llama-3.3-70B-Instruct"
  , temperature := 0.7
  , max_tokens := 1024
  , is_built_in := false
  , created_at := ""
  , updated_at := ""
  , enable_local_anonymizer := true
  , preferred_backend := "nebius"
  , anonymization_mode := "required"
  , local_ollama_model := none }

/-- A persona with local-only backend and required anonymization. -/
def ollama_required_persona : Persona :=
  { nebius_required_persona with
      preferred_backend := "ollama"
    , local_ollama_model := some "mistral:7b-instruct-q5_K_M" }

/-! ## Anonymization engine (`anonymization.rs`, types from `db.rs` and
`ollama.rs`)

The service object holds compiled `regex` patterns; here each pattern is
an oracle field (`*_is_match` for `Regex::is_match`, `*_find_iter` for
`Regex::find_iter`, the latter returning the matched substrings in order,
with start offsets where the source uses them).  `Uuid::new_v4` is an
oracle `uuids : Nat → String` consumed left to right, and `Utc::now`
is the parameter `now`. -/

/-- `db.rs::PiiMapping` (`Vec<u8>` as `List Nat`). -/
structure PiiMapping where
  id : String
  conversation_id : String
  pii_category : String
  pii_value_encrypted : List Nat
  placeholder : String
  is_encrypted : Bool
  created_at : String
  deriving Repr, DecidableEq

/-- `ollama.rs::PIIConfidenceScores` (`f32` as `ℚ`). -/
structure PIIConfidenceScores where
  bsn : ℚ
  name : ℚ
  surname : ℚ
  phone : ℚ
  address : ℚ
  email : ℚ
  income : ℚ
  deriving Repr, DecidableEq

/-- `ollama.rs::PIIExtraction`. -/
structure PIIExtraction where
  bsn : Option String
  name : Option String
  surname : Option String
  phone : Option String
  address : Option String
  email : Option String
  income : Option String
  confidence_scores : PIIConfidenceScores
  deriving Repr, DecidableEq

/-- `anonymization.rs::DEFAULT_CONFIDENCE_THRESHOLD` (`0.7_f32`), given
in reduced-fraction form so that comparisons evaluate by kernel
reduction. -/
def DEFAULT_CONFIDENCE_THRESHOLD : ℚ := ⟨7, 10, by norm_num, by norm_num⟩

/-- `anonymization.rs::AnonymizationService`, with each compiled regex
replaced by match/find oracles. -/
structure AnonymizationService where
  bsn_is_match : String → Bool
  phone_is_match : String → Bool
  iban_is_match : String → Bool
  postcode_is_match : String → Bool
  email_is_match : String → Bool
  bsn_find_iter : String → List (Nat × String)
  iban_find_iter : String → List String
  euro_find_iter : String → List String
  confidence_threshold : ℚ

/-- `AnonymizationService::meets_confidence_threshold`:
`confidence >= self.confidence_threshold`. -/
def meets_confidence_threshold (svc : AnonymizationService)
    (confidence : ℚ) : Bool :=
  decide (svc.confidence_threshold ≤ confidence)

/-- `AnonymizationService::check_confidence`: a `None` value is rejected;
a below-threshold confidence is logged and rejected; otherwise accepted. -/
def check_confidence (svc : AnonymizationService) (confidence : ℚ)
    (value : Option String) : Bool :=
  if value.isNone then false
  else if !(meets_confidence_threshold svc confidence) then false
  else true

/-- `AnonymizationService::create_mapping_and_replace`: mint a fresh
placeholder and mapping id, replace all occurrences of the value in the
text, and record a mapping whose ciphertext is left empty with
`is_encrypted = false` ("would be encrypted in production").  The `Nat`
result is the advanced uuid-supply cursor. -/
def create_mapping_and_replace (uuids : Nat → String) (now : String)
    (ctr : Nat) (text pii_value pii_category conversation_id : String) :
    (String × PiiMapping) × Nat :=
  let placeholder := uuids ctr
  let mapping_id := uuids (ctr + 1)
  let placeholder_text :=
    "[PLACEHOLDER_" ++ rtoUpper pii_category ++ "_" ++ placeholder ++ "]"
  let new_text := rreplace text pii_value placeholder_text
  let mapping : PiiMapping :=
    { id := mapping_id
    , conversation_id := conversation_id
    , pii_category := pii_category
    , pii_value_encrypted := []
    , placeholder := placeholder
    , is_encrypted := false
    , created_at := now }
  ((new_text, mapping), ctr + 2)

/-- One field block of `anonymize_text` (the source repeats this shape for
bsn, name, surname, phone, address, email and income): when
`check_confidence` accepts and the value is present, replace and append
the new mapping, else leave the state unchanged.  State is
(working text, mappings so far, uuid cursor). -/
def processField (svc : AnonymizationService) (uuids : Nat → String)
    (now conversation_id : String) (value : Option String)
    (confidence : ℚ) (category : String)
    (st : String × List PiiMapping × Nat) : String × List PiiMapping × Nat :=
  let text := st.1
  let mappings := st.2.1
  let ctr := st.2.2
  if check_confidence svc confidence value then
    match value with
    | some v =>
      let r := create_mapping_and_replace uuids now ctr text v category
        conversation_id
      (r.1.1, mappings ++ [r.1.2], r.2)
    | none => (text, mappings, ctr)
  else (text, mappings, ctr)

/-- `value.replace(['€', ' ', '.', ',', 'e', 'u', 'r', 'o', 'E', 'U', 'R'], "")`. -/
def clean_amount (value : String) : String :=
  ⟨value.data.filter
    (fun c => !(['€', ' ', '.', ',', 'e', 'u', 'r', 'o', 'E', 'U', 'R'].contains c))⟩

/-- Rust `str::parse::<i64>`: an optional sign followed by one or more
ASCII digits, rejecting anything else and values outside the `i64` range. -/
def parse_i64 (s : String) : Option Int :=
  let cs := s.data
  let signed : Bool × List Char :=
    match cs with
    | '+' :: r => (false, r)
    | '-' :: r => (true, r)
    | r => (false, r)
  let ds := signed.2
  if ds.isEmpty then none
  else if ds.all (fun c => c.isDigit) then
    let n : Nat := ds.foldl (fun acc c => acc * 10 + (c.toNat - 48)) 0
    let v : Int := if signed.1 then -(n : Int) else (n : Int)
    if -(2 : Int) ^ 63 ≤ v ∧ v ≤ 2 ^ 63 - 1 then some v else none
  else none

/-- Rust `&text[..n]` (prefix up to the capture start). -/
def rtake (s : String) (n : Nat) : String :=
  ⟨s.data.take n⟩

/-- The BSN loop body of `regex_fallback_anonymization`: each match not
immediately preceded by `"[PLACEHOLDER_"` in the original text is
replaced in the accumulated result and recorded as `bsn_regex`. -/
def regex_bsn_step (uuids : Nat → String) (now conversation_id : String)
    (orig_text : String) (st : String × List PiiMapping × Nat)
    (cap : Nat × String) : String × List PiiMapping × Nat :=
  if !(rendsWith (rtake orig_text cap.1) "[PLACEHOLDER_") then
    let r := create_mapping_and_replace uuids now st.2.2 st.1 cap.2 "bsn_regex"
      conversation_id
    (r.1.1, st.2.1 ++ [r.1.2], r.2)
  else st

/-- The IBAN loop body of `regex_fallback_anonymization`: every match is
replaced and recorded as `iban_regex`. -/
def regex_iban_step (uuids : Nat → String) (now conversation_id : String)
    (st : String × List PiiMapping × Nat) (value : String) :
    String × List PiiMapping × Nat :=
  let r := create_mapping_and_replace uuids now st.2.2 st.1 value "iban_regex"
    conversation_id
  (r.1.1, st.2.1 ++ [r.1.2], r.2)

/-- The euro-amount loop body of `regex_fallback_anonymization`: matches
whose cleaned text parses as an integer greater than 1000 are replaced and
recorded as `amount_regex`. -/
def regex_euro_step (uuids : Nat → String) (now conversation_id : String)
    (st : String × List PiiMapping × Nat) (value : String) :
    String × List PiiMapping × Nat :=
  match parse_i64 (clean_amount value) with
  | some amount =>
    if amount > 1000 then
      let r := create_mapping_and_replace uuids now st.2.2 st.1 value
        "amount_regex" conversation_id
      (r.1.1, st.2.1 ++ [r.1.2], r.2)
    else st
  | none => st

/-- `AnonymizationService::regex_fallback_anonymization`: the BSN pass
iterates over matches of the incoming text, the IBAN and euro passes over
matches of the then-current result, all replacements accumulating in
`result`. -/
def regex_fallback_anonymization (svc : AnonymizationService)
    (uuids : Nat → String) (now conversation_id : String) (text : String)
    (ctr : Nat) : String × List PiiMapping × Nat :=
  let st0 : String × List PiiMapping × Nat := (text, [], ctr)
  let st1 := (svc.bsn_find_iter text).foldl
    (regex_bsn_step uuids now conversation_id text) st0
  let st2 := (svc.iban_find_iter st1.1).foldl
    (regex_iban_step uuids now conversation_id) st1
  let st3 := (svc.euro_find_iter st2.1).foldl
    (regex_euro_step uuids now conversation_id) st2
  st3

/-- `AnonymizationService::anonymize_text`: the structured pass walks the
seven extraction fields in order, then the regex backstop runs on the
resulting text and its mappings are appended. -/
def anonymize_text (svc : AnonymizationService) (uuids : Nat → String)
    (now : String) (text : String) (pii_extraction : PIIExtraction)
    (conversation_id : String) : String × List PiiMapping :=
  let confidence := pii_extraction.confidence_scores
  let st0 : String × List PiiMapping × Nat := (text, [], 0)
  let st1 := processField svc uuids now conversation_id pii_extraction.bsn
    confidence.bsn "bsn" st0
  let st2 := processField svc uuids now conversation_id pii_extraction.name
    confidence.name "name" st1
  let st3 := processField svc uuids now conversation_id
    pii_extraction.surname confidence.surname "surname" st2
  let st4 := processField svc uuids now conversation_id pii_extraction.phone
    confidence.phone "phone" st3
  let st5 := processField svc uuids now conversation_id
    pii_extraction.address confidence.address "address" st4
  let st6 := processField svc uuids now conversation_id pii_extraction.email
    confidence.email "email" st5
  let st7 := processField svc uuids now conversation_id
    pii_extraction.income confidence.income "income" st6
  let fb := regex_fallback_anonymization svc uuids now conversation_id
    st7.1 st7.2.2
  (fb.1, st7.2.1 ++ fb.2.1)

/-- `AnonymizationService::deanonymize_text`: for each mapping, the code
builds the *regex-escaped* pattern `r"\[PLACEHOLDER_{CAT}_{token}\]"`
(with literal backslashes) and hands it to `str::replace`, to be replaced
by `[category]`. -/
def deanonymize_text (anonymized_text : String)
    (mappings : List PiiMapping) : String :=
  mappings.foldl
    (fun t mapping =>
      let placeholder_pattern :=
        "\\[PLACEHOLDER_" ++ rtoUpper mapping.pii_category ++ "_"
          ++ mapping.placeholder ++ "\\]"
      rreplace t placeholder_pattern ("[" ++ mapping.pii_category ++ "]"))
    anonymized_text

/-- `anonymization.rs::RiskLevel`. -/
inductive RiskLevel where
  | Safe
  | Low
  | Medium
  | High
  deriving Repr, DecidableEq

/-- `anonymization.rs::AnonymizationValidation`. -/
structure AnonymizationValidation where
  is_safe : Bool
  found_patterns : List String
  risk_level : RiskLevel
  deriving Repr, DecidableEq

/-- The euro-amount loop of `validate_anonymization`: it pushes the
pattern (once, then breaks) exactly when some euro match cleans and parses
to an amount greater than 10000. -/
def euro_amount_above_10k (svc : AnonymizationService) (text : String) :
    Bool :=
  (svc.euro_find_iter text).any fun value =>
    match parse_i64 (clean_amount value) with
    | some amount => decide (amount > 10000)
    | none => false

/-- `AnonymizationService::validate_anonymization`: scan the six pattern
classes in order, accumulating found-pattern labels and escalating the
risk level (BSN/IBAN high; phone/email medium unless already high;
postcode/large-amount low if still safe); safe iff nothing was found. -/
def validate_anonymization (svc : AnonymizationService) (text : String) :
    AnonymizationValidation :=
  let found0 : List String := []
  let risk0 := RiskLevel.Safe
  let found1 := if svc.bsn_is_match text then
    found0 ++ ["Dutch BSN (9-digit number)"] else found0
  let risk1 := if svc.bsn_is_match text then RiskLevel.High else risk0
  let found2 := if svc.iban_is_match text then
    found1 ++ ["Dutch IBAN"] else found1
  let risk2 := if svc.iban_is_match text then RiskLevel.High else risk1
  let found3 := if svc.phone_is_match text then
    found2 ++ ["Dutch phone number"] else found2
  let risk3 := if svc.phone_is_match text then
    (if risk2 ≠ RiskLevel.High then RiskLevel.Medium else risk2) else risk2
  let found4 := if svc.email_is_match text then
    found3 ++ ["Email address"] else found3
  let risk4 := if svc.email_is_match text then
    (if risk3 ≠ RiskLevel.High then RiskLevel.Medium else risk3) else risk3
  let found5 := if svc.postcode_is_match text then
    found4 ++ ["Dutch postcode"] else found4
  let risk5 := if svc.postcode_is_match text then
    (if risk4 = RiskLevel.Safe then RiskLevel.Low else risk4) else risk4
  let found6 := if euro_amount_above_10k svc text then
    found5 ++ ["Large euro amount (>€10k)"] else found5
  let risk6 := if euro_amount_above_10k svc text then
    (if risk5 = RiskLevel.Safe then RiskLevel.Low else risk5) else risk5
  { is_safe := found6.isEmpty
  , found_patterns := found6
  , risk_level := risk6 }

/-- `AnonymizationService::validate_strict`. -/
def validate_strict (svc : AnonymizationService) (text : String) : Bool :=
  (validate_anonymization svc text).is_safe

/-- `AnonymizationService::validate_lenient`. -/
def validate_lenient (svc : AnonymizationService) (text : String) : Bool :=
  decide ((validate_anonymization svc text).risk_level ≠ RiskLevel.High)

/-- A mapping that stores no PII: the ciphertext is empty and marked
unencrypted. -/
def cleanMapping (m : PiiMapping) : Prop :=
  m.is_encrypted = false ∧ m.pii_value_encrypted = []

/-- A service instance whose pattern oracles match nothing, with the
default confidence threshold — used to instantiate theorems at concrete
inputs whose texts genuinely contain none of the patterns. -/
def trivialRegexService : AnonymizationService :=
  { bsn_is_match := fun _ => false
  , phone_is_match := fun _ => false
  , iban_is_match := fun _ => false
  , postcode_is_match := fun _ => false
  , email_is_match := fun _ => false
  , bsn_find_iter := fun _ => []
  , iban_find_iter := fun _ => []
  , euro_find_iter := fun _ => []
  , confidence_threshold := DEFAULT_CONFIDENCE_THRESHOLD }

/-- A deterministic stand-in for the `Uuid::new_v4` supply. -/
def exampleUuids : Nat → String := fun n => "uuid-" ++ toString n

/-- An extraction holding a single high-confidence BSN. -/
def exampleExtraction : PIIExtraction :=
  { bsn := some "123456789"
  , name := none
  , surname := none
  , phone := none
  , address := none
  , email := none
  , income := none
  , confidence_scores :=
    { bsn := ⟨19, 20, by norm_num, by norm_num⟩
    , name := ⟨0, 1, by norm_num, by norm_num⟩
    , surname := ⟨0, 1, by norm_num, by norm_num⟩
    , phone := ⟨0, 1, by norm_num, by norm_num⟩
    , address := ⟨0, 1, by norm_num, by norm_num⟩
    , email := ⟨0, 1, by norm_num, by norm_num⟩
    , income := ⟨0, 1, by norm_num, by norm_num⟩ } }


/-! ## Re-hydration engine (`rehydration.rs`)

`Local::now()` is modelled by a `LocalDate` parameter; `%d-%m-%Y`
zero-pads day and month to two digits and the year to four. -/

/-- `rehydration.rs::PIIValues` (the custom `HashMap` as an association
list). -/
structure PIIValues where
  bsn : Option String
  name : Option String
  surname : Option String
  date_of_birth : Option String
  email : Option String
  phone : Option String
  address : Option String
  postcode : Option String
  city : Option String
  income : Option String
  salary : Option String
  iban : Option String
  tax_number : Option String
  tax_year : Option String
  accountant_name : Option String
  accountant_email : Option String
  employer_name : Option String
  custom : List (String × String)
  deriving Repr, DecidableEq

/-- `rehydration.rs::FilledPlaceholder`. -/
structure FilledPlaceholder where
  placeholder : String
  placeholder_type : String
  masked_value : String
  is_sensitive : Bool
  deriving Repr, DecidableEq

/-- `rehydration.rs::RehydrationResult`. -/
structure RehydrationResult where
  content : String
  filled_placeholders : List FilledPlaceholder
  unfilled_placeholders : List String
  is_complete : Bool
  deriving Repr, DecidableEq

/-- The wall-clock date supplied by `chrono::Local::now()`. -/
structure LocalDate where
  day : Nat
  month : Nat
  year : Nat
  deriving Repr, DecidableEq

/-- Zero-pad to two digits (chrono `%d`, `%m`). -/
def pad2 (n : Nat) : String :=
  if n < 10 then "0" ++ toString n else toString n

/-- Zero-pad to four digits (chrono `%Y`). -/
def pad4 (n : Nat) : String :=
  if n < 10 then "000" ++ toString n
  else if n < 100 then "00" ++ toString n
  else if n < 1000 then "0" ++ toString n
  else toString n

/-- `rehydration.rs::get_current_date`: `Local::now().format("%d-%m-%Y")`. -/
def get_current_date (today : LocalDate) : String :=
  pad2 today.day ++ "-" ++ pad2 today.month ++ "-" ++ pad4 today.year

/-- `rehydration.rs::get_current_tax_year`: the calendar year, minus one
before April. -/
def get_current_tax_year (today : LocalDate) : String :=
  toString (if today.month < 4 then today.year - 1 else today.year)

/-- `rehydration.rs::combine_full_name`: join the present name parts with
a space. -/
def combine_full_name (pii : PIIValues) : Option String :=
  match pii.name, pii.surname with
  | some n, some s => some (n ++ " " ++ s)
  | some n, none => some n
  | none, some s => some s
  | none, none => none

/-- Rust `str::trim_matches` with a char predicate. -/
def trim_matches (s : String) (pred : Char → Bool) : String :=
  ⟨((s.data.dropWhile pred).reverse.dropWhile pred).reverse⟩

/-- The last `n` chars of a string (Rust `&value[value.len()-n..]`). -/
def strSuffix (s : String) (n : Nat) : String :=
  ⟨s.data.drop (s.data.length - n)⟩

/-- Split a char list at the first occurrence of `c`, keeping `c` in the
second part (Rust `str::find` plus the two slices). -/
def splitAtFirst (c : Char) : List Char → Option (List Char × List Char)
  | [] => none
  | x :: xs =>
    if x = c then some ([], x :: xs)
    else match splitAtFirst c xs with
      | some p => some (x :: p.1, p.2)
      | none => none

/-- `rehydration.rs::mask_value`: audit-display masks per placeholder
kind. -/
def mask_value (value placeholder : String) : String :=
  if placeholder == "[BSN]" then
    if value.length > 3 then "***" ++ strSuffix value 3 else "***"
  else if placeholder == "[IBAN]" || placeholder == "[BANK_ACCOUNT]" then
    if value.length > 4 then "****" ++ strSuffix value 4 else "****"
  else if placeholder == "[INCOME]" || placeholder == "[SALARY]" then
    "€***"
  else if placeholder == "[PHONE]" then
    let digits : String := ⟨value.data.filter Char.isDigit⟩
    if digits.length > 4 then "****" ++ strSuffix digits 4 else "****"
  else if placeholder == "[EMAIL]" then
    match splitAtFirst '@' value.data with
    | some p =>
      if p.1.length > 2 then
        ⟨p.1.take 2⟩ ++ "***" ++ (⟨p.2⟩ : String)
      else
        "***" ++ (⟨p.2⟩ : String)
    | none => "***@***"
  else
    if value.length > 20 then rtake value 20 ++ "..." else value

/-- One iteration of the fixed-table loop in
`rehydration.rs::rehydrate_template`: a placeholder present in the
current text is substituted and logged when its value exists, otherwise
recorded as unfilled.  State is (text, filled, unfilled). -/
def rehydrate_step
    (st : String × List FilledPlaceholder × List String)
    (r : String × Option String × Bool) :
    String × List FilledPlaceholder × List String :=
  if rcontains st.1 r.1 then
    match r.2.1 with
    | some val =>
      (rreplace st.1 r.1 val,
       st.2.1 ++
         [{ placeholder := r.1
          , placeholder_type := trim_matches r.1 (fun c => c == '[' || c == ']')
          , masked_value := mask_value val r.1
          , is_sensitive := r.2.2 }],
       st.2.2)
    | none => (st.1, st.2.1, st.2.2 ++ [r.1])
  else st

/-- One iteration of the custom-placeholder loop of
`rehydrate_template`. -/
def rehydrate_custom_step
    (st : String × List FilledPlaceholder × List String)
    (kv : String × String) :
    String × List FilledPlaceholder × List String :=
  let placeholder := "[" ++ kv.1 ++ "]"
  if rcontains st.1 placeholder then
    (rreplace st.1 placeholder kv.2,
     st.2.1 ++
       [{ placeholder := placeholder
        , placeholder_type := kv.1
        , masked_value :=
            if kv.2.length > 10 then rtake kv.2 10 ++ "..." else kv.2
        , is_sensitive := false }],
     st.2.2)
  else st

/-- `rehydration.rs::rehydrate_template`: walk the fixed replacement
table in order, then the custom map, deduplicate the unfilled list
(the source collects through a `HashSet`), and report completeness. -/
def rehydrate_template (today : LocalDate) (template : String)
    (pii_values : PIIValues) : RehydrationResult :=
  let replacements : List (String × Option String × Bool) :=
    [ ("[BSN]", pii_values.bsn, true)
    , ("[NAME]", pii_values.name, false)
    , ("[SURNAME]", pii_values.surname, false)
    , ("[FULL_NAME]", combine_full_name pii_values, false)
    , ("[DATE_OF_BIRTH]", pii_values.date_of_birth, true)
    , ("[EMAIL]", pii_values.email, false)
    , ("[PHONE]", pii_values.phone, true)
    , ("[ADDRESS]", pii_values.address, false)
    , ("[POSTCODE]", pii_values.postcode, false)
    , ("[CITY]", pii_values.city, false)
    , ("[INCOME]", pii_values.income, true)
    , ("[SALARY]", pii_values.salary, true)
    , ("[IBAN]", pii_values.iban, true)
    , ("[BANK_ACCOUNT]", pii_values.iban, true)
    , ("[TAX_NUMBER]",
        pii_values.tax_number.orElse (fun _ => pii_values.bsn), true)
    , ("[TAX_YEAR]",
        pii_values.tax_year.orElse
          (fun _ => some (get_current_tax_year today)), false)
    , ("[ACCOUNTANT_NAME]", pii_values.accountant_name, false)
    , ("[ACCOUNTANT_EMAIL]", pii_values.accountant_email, false)
    , ("[EMPLOYER_NAME]", pii_values.employer_name, false)
    , ("[CURRENT_DATE]", some (get_current_date today), false) ]
  let st1 := replacements.foldl rehydrate_step (template, [], [])
  let st2 := pii_values.custom.foldl rehydrate_custom_step st1
  let unique_unfilled := st2.2.2.dedup
  { content := st2.1
  , filled_placeholders := st2.2.1
  , unfilled_placeholders := unique_unfilled
  , is_complete := unique_unfilled.isEmpty }

/-- The PII record of end-to-end scenario 6: only the BSN is known. -/
def examplePIIValues : PIIValues :=
  { bsn := some "123456789"
  , name := none
  , surname := none
  , date_of_birth := none
  , email := none
  , phone := none
  , address := none
  , postcode := none
  , city := none
  , income := none
  , salary := none
  , iban := none
  , tax_number := none
  , tax_year := none
  , accountant_name := none
  , accountant_email := none
  , employer_name := none
  , custom := [] }

/-! ## Crypto boundary (`crypto.rs`)

The ChaCha20-Poly1305 primitive from the `chacha20poly1305` crate is an
oracle; byte strings are `List Nat`.  Plaintext strings are identified
with their UTF-8 byte sequences (`String::from_utf8` of the bytes of a
string is the identity at this abstraction). -/

/-- `const NONCE_SIZE: usize = 12` (96 bits). -/
def NONCE_SIZE : Nat := 12

/-- `const KEY_SIZE: usize = 32` (256 bits). -/
def KEY_SIZE : Nat := 32

/-- `const TAG_SIZE: usize = 16` (128 bits). -/
def TAG_SIZE : Nat := 16

/-- The AEAD primitive: encryption (appending a tag) and fallible,
authenticated decryption. -/
structure AeadCipher where
  enc : List Nat → List Nat → List Nat → List Nat
  dec : List Nat → List Nat → List Nat → Option (List Nat)

/-- `crypto.rs::PiiEncryption::encrypt`: draw a fresh UUID, use its first
`NONCE_SIZE` bytes as the nonce, encrypt, and prepend the nonce to the
ciphertext.  The UUID bytes for this call are the `nonce_bytes`
parameter. -/
def pii_encrypt (aead : AeadCipher) (key nonce_bytes plaintext : List Nat) :
    List Nat :=
  let nonce := nonce_bytes.take NONCE_SIZE
  nonce ++ aead.enc key nonce plaintext

/-- `crypto.rs::PiiEncryption::decrypt`: reject inputs shorter than the
nonce, split off the nonce, and decrypt the remainder. -/
def pii_decrypt (aead : AeadCipher) (key encrypted : List Nat) :
    Except String (List Nat) :=
  if encrypted.length < NONCE_SIZE then .error "Encrypted data too short"
  else
    let nonce := encrypted.take NONCE_SIZE
    let ciphertext := encrypted.drop NONCE_SIZE
    match aead.dec key nonce ciphertext with
    | some plaintext_bytes => .ok plaintext_bytes
    | none => .error "Decryption failed"

/-- A concrete AEAD satisfying the decrypt-of-encrypt contract, used to
instantiate the round-trip theorem. -/
def toyAead : AeadCipher :=
  { enc := fun _ _ m => m ++ List.replicate TAG_SIZE 0
  , dec := fun _ _ c => some (c.take (c.length - TAG_SIZE)) }

/-! ## Theorems -/

/-- C8: if the tokenized prompt length is at most `ctx_size - 64` the token
list is returned unchanged; if it exceeds `ctx_size - 64`, exactly the
suffix of the most recent `ctx_size - 64` tokens is retained; and if the
token list is empty after trimming, the step fails with an
inference-failed error. -/
theorem prompt_truncation_spec (ctx_size : Nat) (tokens : List Int)
    (hctx : 64 ≤ ctx_size) :
    (tokens.length ≤ ctx_size - 64 → truncate_prompt ctx_size tokens = tokens) ∧
    (tokens.length > ctx_size - 64 →
      truncate_prompt ctx_size tokens
        = tokens.drop (tokens.length - (ctx_size - 64)) ∧
      (truncate_prompt ctx_size tokens).length = ctx_size - 64) ∧
    (truncate_prompt ctx_size tokens = [] →
      trim_prompt_checked ctx_size tokens
        = .error (.InferenceFailed "Empty prompt after tokenization")) := by
  refine ⟨?_, ?_, ?_⟩
  · intro h
    simp only [truncate_prompt]
    rw [if_neg (by omega)]
  · intro h
    constructor
    · simp only [truncate_prompt]
      rw [if_pos h]
    · simp only [truncate_prompt]
      rw [if_pos h]
      simp only [List.length_drop]
      omega
  · intro h
    simp only [trim_prompt_checked, h]
    rfl

/-- Witness for `prompt_truncation_spec` at `ctx_size = 1024` with a
three-token prompt: no truncation happens and trimming a longer prompt
keeps the suffix. -/
theorem prompt_truncation_spec_witness :
    64 ≤ 1024 ∧ truncate_prompt 1024 [1, 2, 3] = [1, 2, 3] :=
  ⟨by decide, (prompt_truncation_spec 1024 [1, 2, 3] (by decide)).1 (by decide)⟩

/-- C9: the repetition guard compares windows only once at least 80 bytes
exist, stops only on the third consecutive identical comparison (an
unequal comparison resets the counter), truncates the repetitive tail when
it stops, and on a stream of identical bytes it does not trigger at
exactly 80 bytes but does trigger by 120 bytes. -/
theorem repetition_guard_spec :
    (∀ (s : RepState) (chunk : List Nat), s.stopped = false →
      (s.out ++ chunk).length < rep_window * 2 →
      repStep s chunk = ⟨s.out ++ chunk, s.rep_count, false⟩) ∧
    (∀ (s : RepState) (chunk : List Nat), s.stopped = false →
      (s.out ++ chunk).length ≥ rep_window * 2 →
      (s.out ++ chunk).drop ((s.out ++ chunk).length - rep_window)
        ≠ ((s.out ++ chunk).drop ((s.out ++ chunk).length - rep_window * 2)).take
            rep_window →
      repStep s chunk = ⟨s.out ++ chunk, 0, false⟩) ∧
    (∀ (s : RepState) (chunk : List Nat), s.stopped = false →
      s.rep_count ≤ 2 →
      (repStep s chunk).stopped = true →
      s.rep_count = 2 ∧
      (repStep s chunk).out
        = (s.out ++ chunk).take ((s.out ++ chunk).length - rep_window * 2)) ∧
    (runGuard (List.replicate 80 [97])).stopped = false ∧
    (runGuard (List.replicate 120 [97])).stopped = true := by
  refine ⟨?_, ?_, ?_, by decide, by decide⟩
  · intro s chunk h0 hlen
    simp only [repStep, h0, Bool.false_eq_true, if_false]
    rw [if_neg (by omega)]
  · intro s chunk h0 hlen hne
    simp only [repStep, h0, Bool.false_eq_true, if_false]
    rw [if_pos hlen, if_neg hne]
  · intro s chunk h0 hinv hstop
    simp only [repStep, h0, Bool.false_eq_true, if_false] at hstop ⊢
    by_cases hlen : (s.out ++ chunk).length ≥ rep_window * 2
    · rw [if_pos hlen] at hstop ⊢
      by_cases heq :
          (s.out ++ chunk).drop ((s.out ++ chunk).length - rep_window)
            = ((s.out ++ chunk).drop
                ((s.out ++ chunk).length - rep_window * 2)).take rep_window
      · rw [if_pos heq] at hstop ⊢
        by_cases hrc : s.rep_count + 1 ≥ 3
        · rw [if_pos hrc] at hstop ⊢
          exact ⟨by omega, rfl⟩
        · rw [if_neg hrc] at hstop
          simp at hstop
      · rw [if_neg heq] at hstop
        simp at hstop
    · rw [if_neg hlen] at hstop
      simp at hstop

/-- Witness for `repetition_guard_spec`: below 80 bytes the guard leaves
the state untouched (concrete 10-byte buffer plus 1-byte chunk). -/
theorem repetition_guard_spec_witness :
    repStep ⟨List.replicate 10 97, 0, false⟩ [97]
      = ⟨List.replicate 10 97 ++ [97], 0, false⟩ :=
  repetition_guard_spec.1 ⟨List.replicate 10 97, 0, false⟩ [97] (by decide)
    (by decide)

/-- C10 counterexample: the empty model name matches no registered id or
filename, yet `ensure_model` does not fail with model-not-found — it falls
back to downloading `qwen3-8b`. -/
theorem ensure_model_empty_name_not_rejected :
    (local_model_registry.all
      (fun m => !(m.id == "") && !(m.filename == ""))) = true ∧
    ensure_model (fun _ => false) "" = .download "qwen3-8b" ∧
    isModelNotFound (ensure_model (fun _ => false) "") = false := by
  decide

/-- C10 (amended): for every *non-empty* model name matching neither a
registered id nor a registered filename, `ensure_model` fails with a
model-not-found error. -/
theorem ensure_model_unknown_name_fails (downloaded : String → Bool)
    (model_name : String) (hne : model_name ≠ "")
    (hunknown : ∀ m ∈ local_model_registry,
      m.id ≠ model_name ∧ m.filename ≠ model_name) :
    ensure_model downloaded model_name
      = .failed (.ModelNotFound ("Unknown model: " ++ model_name)) := by
  have hfind : local_model_registry.find?
      (fun m => m.id == model_name || m.filename == model_name) = none := by
    rw [List.find?_eq_none]
    intro m hm
    rcases hunknown m hm with ⟨h1, h2⟩
    simp [h1, h2]
  have hq : model_name ≠ "Qwen3-8B-Q4_K_M.gguf" := by
    intro h
    rw [h] at hfind
    exact absurd hfind (by decide)
  unfold ensure_model
  rw [hfind]
  simp [hne, hq]

/-- Witness for `ensure_model_unknown_name_fails` at the concrete unknown
name `"notamodel"`. -/
theorem ensure_model_unknown_name_fails_witness :
    ensure_model (fun _ => false) "notamodel"
      = .failed (.ModelNotFound ("Unknown model: " ++ "notamodel")) :=
  ensure_model_unknown_name_fails (fun _ => false) "notamodel" (by decide)
    (by decide)

/-- C1 counterexample: a persona with `anonymization_mode = "required"`
whose routing decision with the availability probe false has
`is_safe = true` (the `"nebius"` branch proceeds with attributes-only
content instead of blocking), refuting the claim's
"regardless of the persona's preferred_backend" quantification. -/
theorem routing_required_unavailable_not_always_blocked :
    nebius_required_persona.anonymization_mode = "required" ∧
    nebius_required_persona.enable_local_anonymizer = true ∧
    (make_routing_decision nebius_required_persona false).is_safe = true := by
  decide

/-- C1 (amended): for every persona with `anonymization_mode = "required"`,
a routing decision taken while the local-model availability probe returns
false has `is_safe = false`, provided the lowercased preferred backend is
`"ollama"`, or it is neither `"ollama"` nor `"nebius"` (the hybrid/default
branch) with `enable_local_anonymizer = true`.  (With backend `"nebius"`,
or hybrid with the anonymizer disabled, the code instead proceeds with
`is_safe = true`.) -/
theorem routing_required_fail_closed (persona : Persona)
    (hmode : persona.anonymization_mode = "required")
    (hbackend : rtoLower persona.preferred_backend = "ollama" ∨
      (rtoLower persona.preferred_backend ≠ "ollama" ∧
       rtoLower persona.preferred_backend ≠ "nebius" ∧
       persona.enable_local_anonymizer = true)) :
    (make_routing_decision persona false).is_safe = false := by
  rcases hbackend with hb | ⟨hb1, hb2, hen⟩
  · simp [make_routing_decision, AnonymizationMode.from_string, hmode, hb]
  · simp [make_routing_decision, AnonymizationMode.from_string, hmode, hb1,
      hb2, hen]

/-- Witness for `routing_required_fail_closed`: the local-only persona is
blocked when the probe fails. -/
theorem routing_required_fail_closed_witness :
    (make_routing_decision ollama_required_persona false).is_safe = false :=
  routing_required_fail_closed ollama_required_persona (by decide)
    (Or.inl (by decide))

/-- Helper: a fold preserves any invariant preserved by its step. -/
theorem foldl_preserves {α β : Type} (P : β → Prop) (f : β → α → β)
    (h : ∀ b a, P b → P (f b a)) :
    ∀ (l : List α) (b : β), P b → P (l.foldl f b) := by
  intro l
  induction l with
  | nil => intro b hb; exact hb
  | cons a t ih => intro b hb; exact ih _ (h b a hb)

/-- Helper: the mapping produced by `create_mapping_and_replace` stores no
ciphertext and is marked unencrypted. -/
theorem create_mapping_and_replace_clean (uuids : Nat → String)
    (now : String) (ctr : Nat) (text v cat conv : String) :
    cleanMapping ((create_mapping_and_replace uuids now ctr text v cat
      conv).1.2) :=
  ⟨rfl, rfl⟩

/-- Helper: one structured-pass field step keeps all mappings clean. -/
theorem processField_clean (svc : AnonymizationService)
    (uuids : Nat → String) (now conv : String) (value : Option String)
    (conf : ℚ) (cat : String) (st : String × List PiiMapping × Nat)
    (h : ∀ m ∈ st.2.1, cleanMapping m) :
    ∀ m ∈ (processField svc uuids now conv value conf cat st).2.1,
      cleanMapping m := by
  intro m hm
  by_cases hc : check_confidence svc conf value = true
  · cases value with
    | none =>
      simp only [processField, hc, if_true] at hm
      exact h m hm
    | some v =>
      simp only [processField, hc, if_true, List.mem_append,
        List.mem_singleton] at hm
      rcases hm with hm | hm
      · exact h m hm
      · rw [hm]
        exact create_mapping_and_replace_clean uuids now st.2.2 st.1 v cat
          conv
  · simp only [processField, hc, if_false] at hm
    exact h m hm

/-- Helper: the BSN backstop step keeps all mappings clean. -/
theorem regex_bsn_step_clean (uuids : Nat → String) (now conv ot : String)
    (st : String × List PiiMapping × Nat) (cap : Nat × String)
    (h : ∀ m ∈ st.2.1, cleanMapping m) :
    ∀ m ∈ (regex_bsn_step uuids now conv ot st cap).2.1, cleanMapping m := by
  intro m hm
  by_cases hg : rendsWith (rtake ot cap.1) "[PLACEHOLDER_" = true
  · simp only [regex_bsn_step, hg, Bool.not_true, if_false] at hm
    exact h m hm
  · rw [Bool.not_eq_true] at hg
    simp only [regex_bsn_step, hg, Bool.not_false, if_true, List.mem_append,
      List.mem_singleton] at hm
    rcases hm with hm | hm
    · exact h m hm
    · rw [hm]
      exact create_mapping_and_replace_clean uuids now st.2.2 st.1 cap.2
        "bsn_regex" conv

/-- Helper: the IBAN backstop step keeps all mappings clean. -/
theorem regex_iban_step_clean (uuids : Nat → String) (now conv : String)
    (st : String × List PiiMapping × Nat) (value : String)
    (h : ∀ m ∈ st.2.1, cleanMapping m) :
    ∀ m ∈ (regex_iban_step uuids now conv st value).2.1, cleanMapping m := by
  intro m hm
  simp only [regex_iban_step, List.mem_append, List.mem_singleton] at hm
  rcases hm with hm | hm
  · exact h m hm
  · rw [hm]
    exact create_mapping_and_replace_clean uuids now st.2.2 st.1 value
      "iban_regex" conv

/-- Helper: the euro-amount backstop step keeps all mappings clean. -/
theorem regex_euro_step_clean (uuids : Nat → String) (now conv : String)
    (st : String × List PiiMapping × Nat) (value : String)
    (h : ∀ m ∈ st.2.1, cleanMapping m) :
    ∀ m ∈ (regex_euro_step uuids now conv st value).2.1, cleanMapping m := by
  intro m hm
  unfold regex_euro_step at hm
  split at hm
  · split at hm
    · simp only [List.mem_append, List.mem_singleton] at hm
      rcases hm with hm | hm
      · exact h m hm
      · rw [hm]
        exact create_mapping_and_replace_clean uuids now st.2.2 st.1 value
          "amount_regex" conv
    · exact h m hm
  · exact h m hm

/-- Helper: every mapping emitted by the regex backstop is clean. -/
theorem regex_fallback_clean (svc : AnonymizationService)
    (uuids : Nat → String) (now conv text : String) (ctr : Nat) :
    ∀ m ∈ (regex_fallback_anonymization svc uuids now conv text ctr).2.1,
      cleanMapping m := by
  have h0 : ∀ m ∈ ((text, [], ctr) :
      String × List PiiMapping × Nat).2.1, cleanMapping m := by
    intro m hm
    simp at hm
  exact foldl_preserves
    (fun st => ∀ m ∈ st.2.1, cleanMapping m)
    (regex_euro_step uuids now conv)
    (fun b a hb => regex_euro_step_clean uuids now conv b a hb) _ _
    (foldl_preserves
      (fun st => ∀ m ∈ st.2.1, cleanMapping m)
      (regex_iban_step uuids now conv)
      (fun b a hb => regex_iban_step_clean uuids now conv b a hb) _ _
      (foldl_preserves
        (fun st => ∀ m ∈ st.2.1, cleanMapping m)
        (regex_bsn_step uuids now conv text)
        (fun b a hb => regex_bsn_step_clean uuids now conv text b a hb) _ _
        h0))

/-- C5: every `PiiMapping` emitted by `anonymize_text` — from the
structured pass and from the regex backstop alike — has
`is_encrypted = false` and an empty `pii_value_encrypted`, i.e. no
plaintext or encrypted PII value is stored in any mapping. -/
theorem anonymize_text_mappings_hold_no_pii (svc : AnonymizationService)
    (uuids : Nat → String) (now text : String)
    (pii_extraction : PIIExtraction) (conversation_id : String) :
    ∀ m ∈ (anonymize_text svc uuids now text pii_extraction
      conversation_id).2, cleanMapping m := by
  intro m hm
  simp only [anonymize_text, List.mem_append] at hm
  have h0 : ∀ m ∈ ((text, [], 0) :
      String × List PiiMapping × Nat).2.1, cleanMapping m := by
    intro m hm
    simp at hm
  have h1 := processField_clean svc uuids now conversation_id
    pii_extraction.bsn pii_extraction.confidence_scores.bsn "bsn" _ h0
  have h2 := processField_clean svc uuids now conversation_id
    pii_extraction.name pii_extraction.confidence_scores.name "name" _ h1
  have h3 := processField_clean svc uuids now conversation_id
    pii_extraction.surname pii_extraction.confidence_scores.surname
    "surname" _ h2
  have h4 := processField_clean svc uuids now conversation_id
    pii_extraction.phone pii_extraction.confidence_scores.phone "phone" _ h3
  have h5 := processField_clean svc uuids now conversation_id
    pii_extraction.address pii_extraction.confidence_scores.address
    "address" _ h4
  have h6 := processField_clean svc uuids now conversation_id
    pii_extraction.email pii_extraction.confidence_scores.email "email" _ h5
  have h7 := processField_clean svc uuids now conversation_id
    pii_extraction.income pii_extraction.confidence_scores.income
    "income" _ h6
  rcases hm with hm | hm
  · exact h7 m hm
  · exact regex_fallback_clean svc uuids now conversation_id _ _ m hm

/-- Witness for `anonymize_text_mappings_hold_no_pii`: the single mapping
produced for the example BSN extraction is clean. -/
theorem anonymize_text_mappings_hold_no_pii_witness :
    cleanMapping
      { id := "uuid-1"
      , conversation_id := "conv-1"
      , pii_category := "bsn"
      , pii_value_encrypted := []
      , placeholder := "uuid-0"
      , is_encrypted := false
      , created_at := "2025-01-01" } :=
  anonymize_text_mappings_hold_no_pii trivialRegexService exampleUuids
    "2025-01-01" "mijn BSN is 123456789" exampleExtraction "conv-1"
    _ (by decide)

/-- C4: `check_confidence` accepts exactly the present fields whose
confidence is at least the threshold (equality included); an accepted
field is replaced (all occurrences, via `rreplace`) by the freshly minted
placeholder and exactly one mapping is appended; an absent or
below-threshold field leaves text, mappings and the uuid supply
untouched. -/
theorem pass1_field_spec (svc : AnonymizationService)
    (uuids : Nat → String) (now conversation_id : String)
    (value : Option String) (confidence : ℚ) (category text : String)
    (mappings : List PiiMapping) (ctr : Nat) :
    (check_confidence svc confidence value = true ↔
      (value.isSome = true ∧ svc.confidence_threshold ≤ confidence)) ∧
    (∀ v, value = some v → svc.confidence_threshold ≤ confidence →
      processField svc uuids now conversation_id value confidence category
          (text, mappings, ctr)
        = (rreplace text v
             ("[PLACEHOLDER_" ++ rtoUpper category ++ "_" ++ uuids ctr ++ "]"),
           mappings ++
             [{ id := uuids (ctr + 1)
              , conversation_id := conversation_id
              , pii_category := category
              , pii_value_encrypted := []
              , placeholder := uuids ctr
              , is_encrypted := false
              , created_at := now }],
           ctr + 2)) ∧
    (value = none →
      processField svc uuids now conversation_id value confidence category
        (text, mappings, ctr) = (text, mappings, ctr)) ∧
    (confidence < svc.confidence_threshold →
      processField svc uuids now conversation_id value confidence category
        (text, mappings, ctr) = (text, mappings, ctr)) := by
  refine ⟨?_, ?_, ?_, ?_⟩
  · cases value <;>
      simp [check_confidence, meets_confidence_threshold]
  · intro v hv hc
    subst hv
    simp [processField, check_confidence, meets_confidence_threshold, hc,
      create_mapping_and_replace]
  · intro hv
    subst hv
    simp [processField, check_confidence]
  · intro hc
    have hn : ¬ (svc.confidence_threshold ≤ confidence) := not_le.mpr hc
    cases value <;>
      simp [processField, check_confidence, meets_confidence_threshold, hn]

/-- Witness for `pass1_field_spec`: a BSN field at confidence exactly the
default threshold 0.7 is accepted and replaced. -/
theorem pass1_field_spec_witness :
    processField trivialRegexService exampleUuids "2025-01-01" "conv-1"
        (some "123456789") DEFAULT_CONFIDENCE_THRESHOLD "bsn"
        ("mijn BSN is 123456789", [], 0)
      = (rreplace "mijn BSN is 123456789" "123456789"
           ("[PLACEHOLDER_" ++ rtoUpper "bsn" ++ "_" ++ exampleUuids 0 ++ "]"),
         [{ id := exampleUuids 1
          , conversation_id := "conv-1"
          , pii_category := "bsn"
          , pii_value_encrypted := []
          , placeholder := exampleUuids 0
          , is_encrypted := false
          , created_at := "2025-01-01" }],
         2) :=
  (pass1_field_spec trivialRegexService exampleUuids "2025-01-01" "conv-1"
    (some "123456789") DEFAULT_CONFIDENCE_THRESHOLD "bsn"
    "mijn BSN is 123456789" [] 0).2.1
    "123456789" rfl (by decide)

/-- C2: `validate_anonymization` reports safe exactly when none of the six
scanned pattern classes matches; the risk tier is high exactly when the
national-id or IBAN pattern matches; `validate_strict` accepts exactly
the texts whose tier is safe; `validate_lenient` accepts exactly the
texts whose tier is below high. -/
theorem validate_anonymization_spec (svc : AnonymizationService)
    (text : String) :
    ((validate_anonymization svc text).is_safe = true ↔
      (svc.bsn_is_match text = false ∧ svc.iban_is_match text = false ∧
       svc.phone_is_match text = false ∧ svc.email_is_match text = false ∧
       svc.postcode_is_match text = false ∧
       euro_amount_above_10k svc text = false)) ∧
    ((validate_anonymization svc text).risk_level = RiskLevel.High ↔
      (svc.bsn_is_match text = true ∨ svc.iban_is_match text = true)) ∧
    (validate_strict svc text = true ↔
      (validate_anonymization svc text).risk_level = RiskLevel.Safe) ∧
    (validate_lenient svc text = true ↔
      (validate_anonymization svc text).risk_level ≠ RiskLevel.High) := by
  cases hb : svc.bsn_is_match text <;>
    cases hi : svc.iban_is_match text <;>
    cases hp : svc.phone_is_match text <;>
    cases he : svc.email_is_match text <;>
    cases hpc : svc.postcode_is_match text <;>
    cases heu : euro_amount_above_10k svc text <;>
    simp [validate_anonymization, validate_strict, validate_lenient, hb, hi,
      hp, he, hpc, heu]

/-- C3: observed divergence of `deanonymize_text` from the round-trip
law.  For the example text with one BSN, `anonymize_text` replaces the
value with a placeholder and emits one mapping, but `deanonymize_text`
returns the anonymized text unchanged and in particular without a
`[bsn]` category tag: the replace pattern it builds,
`"\\[PLACEHOLDER_BSN_<token>\\]"`, keeps the regex escape backslashes
although `str::replace` matches literally, so it can never occur in the
text. -/
theorem deanonymize_leaves_placeholders_in_place :
    (anonymize_text trivialRegexService exampleUuids "2025-01-01"
        "mijn BSN is 123456789" exampleExtraction "conv-1").2.length = 1 ∧
    rcontains (anonymize_text trivialRegexService exampleUuids "2025-01-01"
        "mijn BSN is 123456789" exampleExtraction "conv-1").1
      "[PLACEHOLDER_BSN_uuid-0]" = true ∧
    rcontains (anonymize_text trivialRegexService exampleUuids "2025-01-01"
        "mijn BSN is 123456789" exampleExtraction "conv-1").1
      "123456789" = false ∧
    deanonymize_text
        (anonymize_text trivialRegexService exampleUuids "2025-01-01"
          "mijn BSN is 123456789" exampleExtraction "conv-1").1
        (anonymize_text trivialRegexService exampleUuids "2025-01-01"
          "mijn BSN is 123456789" exampleExtraction "conv-1").2
      = (anonymize_text trivialRegexService exampleUuids "2025-01-01"
          "mijn BSN is 123456789" exampleExtraction "conv-1").1 ∧
    rcontains
      (deanonymize_text
        (anonymize_text trivialRegexService exampleUuids "2025-01-01"
          "mijn BSN is 123456789" exampleExtraction "conv-1").1
        (anonymize_text trivialRegexService exampleUuids "2025-01-01"
          "mijn BSN is 123456789" exampleExtraction "conv-1").2)
      "[bsn]" = false := by
  decide



/-- Helper: a list is a prefix of itself. -/
theorem isPrefixOf_rfl (l : List Char) : l.isPrefixOf l = true := by
  induction l with
  | nil => rfl
  | cons c t ih => simp [List.isPrefixOf, ih]

/-- Helper: a prefix of `l` is a prefix of `l ++ r`. -/
theorem isPrefixOf_append (p l r : List Char) (h : p.isPrefixOf l = true) :
    p.isPrefixOf (l ++ r) = true := by
  induction p generalizing l with
  | nil => simp [List.isPrefixOf]
  | cons a as ih =>
    cases l with
    | nil => simp [List.isPrefixOf] at h
    | cons b bs =>
      simp only [List.isPrefixOf, Bool.and_eq_true] at h
      simp only [List.cons_append, List.isPrefixOf, Bool.and_eq_true]
      exact ⟨h.1, ih bs h.2⟩

/-- Helper: the empty pattern is a substring of everything. -/
theorem isInfixOfL_nil_pat (r : List Char) : isInfixOfL [] r = true := by
  cases r <;> simp [isInfixOfL, List.isPrefixOf]

/-- Helper: a substring of `l` is a substring of `l ++ r`. -/
theorem isInfixOfL_append_left (pat l r : List Char)
    (h : isInfixOfL pat l = true) : isInfixOfL pat (l ++ r) = true := by
  induction l with
  | nil =>
    have : pat = [] := by
      cases pat with
      | nil => rfl
      | cons c t => simp [isInfixOfL] at h
    rw [this, List.nil_append]
    exact isInfixOfL_nil_pat r
  | cons c t ih =>
    simp only [isInfixOfL, Bool.or_eq_true] at h
    simp only [List.cons_append, isInfixOfL, Bool.or_eq_true]
    rcases h with h | h
    · left
      have := isPrefixOf_append pat (c :: t) r h
      simpa using this
    · right
      exact ih h

/-- Helper: `pat` is a substring of `l ++ pat`. -/
theorem isInfixOfL_append_self (pat l : List Char) :
    isInfixOfL pat (l ++ pat) = true := by
  induction l with
  | nil =>
    cases pat with
    | nil => rfl
    | cons c t => simp [isInfixOfL, isPrefixOf_rfl]
  | cons c t ih =>
    simp only [List.cons_append, isInfixOfL, Bool.or_eq_true]
    right
    exact ih

/-- Helper: the recursion equation of `replaceAllGo` on a nonempty input
with nonzero fuel. -/
theorem replaceAllGo_cons (pat rep : List Char) (fuel : Nat) (c : Char)
    (rest : List Char) :
    replaceAllGo pat rep (fuel + 1) (c :: rest)
      = if pat.isEmpty then rep ++ c :: replaceAllGo pat rep fuel rest
        else if pat.isPrefixOf (c :: rest) then
          rep ++ replaceAllGo pat rep fuel ((c :: rest).drop pat.length)
        else c :: replaceAllGo pat rep fuel rest := rfl

/-- Helper: when the pattern occurs exactly once, at the very end, Rust
replace maps `a ++ pat` to `a ++ rep` (fuel-indexed worker form). -/
theorem replaceAllGo_append (pat rep : List Char) (hpat : pat ≠ []) :
    ∀ (fuel : Nat) (a : List Char), (a ++ pat).length ≤ fuel →
      (∀ i, i < a.length → pat.isPrefixOf ((a ++ pat).drop i) = false) →
      replaceAllGo pat rep fuel (a ++ pat) = a ++ rep := by
  intro fuel
  induction fuel with
  | zero =>
    intro a hlen _
    exfalso
    have hp : pat.length = 0 := by
      simp only [List.length_append] at hlen
      omega
    exact hpat (List.length_eq_zero.mp hp)
  | succ fuel ih =>
    intro a hlen hno
    have hpe : pat.isEmpty = false := by
      cases pat with
      | nil => exact absurd rfl hpat
      | cons c t => rfl
    cases a with
    | nil =>
      cases pat with
      | nil => exact absurd rfl hpat
      | cons c t =>
        simp only [List.nil_append]
        simp [replaceAllGo, hpe, isPrefixOf_rfl, List.drop_length]
    | cons x a' =>
      have h0 := hno 0 (by simp)
      simp only [List.drop_zero, List.cons_append] at h0
      have hshift : ∀ i, i < a'.length →
          pat.isPrefixOf ((a' ++ pat).drop i) = false := by
        intro i hi
        have := hno (i + 1) (by simp; omega)
        simpa using this
      have hlen' : (a' ++ pat).length ≤ fuel := by
        simp only [List.cons_append, List.length_cons] at hlen
        omega
      simp only [List.cons_append]
      rw [replaceAllGo_cons, if_neg (by simp [hpe]), if_neg (by simp [h0]),
        ih a' hlen' hshift]

/-- Helper: the string-level form of `replaceAllGo_append`. -/
theorem replaceAllL_append (a pat rep : List Char) (hpat : pat ≠ [])
    (hno : ∀ i, i < a.length → pat.isPrefixOf ((a ++ pat).drop i) = false) :
    replaceAllL (a ++ pat) pat rep = a ++ rep :=
  replaceAllGo_append pat rep hpat (a ++ pat).length a (Nat.le_refl _) hno

set_option maxHeartbeats 4000000 in
/-- C6: re-hydrating the template
`"Beste [ACCOUNTANT_NAME], mijn BSN is [BSN]. Datum: [CURRENT_DATE]"`
with only `bsn = "123456789"` known yields `is_complete = false`, a
deduplicated unfilled list holding exactly the accountant-name
placeholder, and content containing both `"123456789"` and the current
date in `DD-MM-YYYY` form — for every wall-clock date. -/
theorem template_rehydration_example (today : LocalDate) :
    (rehydrate_template today
        "Beste [ACCOUNTANT_NAME], mijn BSN is [BSN]. Datum: [CURRENT_DATE]"
        examplePIIValues).is_complete = false ∧
    (rehydrate_template today
        "Beste [ACCOUNTANT_NAME], mijn BSN is [BSN]. Datum: [CURRENT_DATE]"
        examplePIIValues).unfilled_placeholders = ["[ACCOUNTANT_NAME]"] ∧
    rcontains (rehydrate_template today
        "Beste [ACCOUNTANT_NAME], mijn BSN is [BSN]. Datum: [CURRENT_DATE]"
        examplePIIValues).content "123456789" = true ∧
    rcontains (rehydrate_template today
        "Beste [ACCOUNTANT_NAME], mijn BSN is [BSN]. Datum: [CURRENT_DATE]"
        examplePIIValues).content (get_current_date today) = true := by
  have hdata : (rehydrate_template today
      "Beste [ACCOUNTANT_NAME], mijn BSN is [BSN]. Datum: [CURRENT_DATE]"
      examplePIIValues).content.data
      = ("Beste [ACCOUNTANT_NAME], mijn BSN is 123456789. Datum: ").data
          ++ (get_current_date today).data := by
    show replaceAllL
      ("Beste [ACCOUNTANT_NAME], mijn BSN is 123456789. Datum: [CURRENT_DATE]").data
      ("[CURRENT_DATE]").data (get_current_date today).data = _
    have heq :
        ("Beste [ACCOUNTANT_NAME], mijn BSN is 123456789. Datum: [CURRENT_DATE]").data
          = ("Beste [ACCOUNTANT_NAME], mijn BSN is 123456789. Datum: ").data
              ++ ("[CURRENT_DATE]").data := by decide
    rw [heq]
    exact replaceAllL_append _ _ _ (by decide) (by decide)
  refine ⟨rfl, rfl, ?_, ?_⟩
  · show isInfixOfL ("123456789").data _ = true
    rw [hdata]
    exact isInfixOfL_append_left _ _ _ (by decide)
  · show isInfixOfL (get_current_date today).data _ = true
    rw [hdata]
    exact isInfixOfL_append_self _ _

/-- C7: with any AEAD satisfying the decrypt-of-encrypt contract and any
process key, decrypting an encryption (fresh 12-byte nonce prepended to
the ciphertext) returns the plaintext, and two encryptions of the same
plaintext under distinct nonces produce distinct outputs. -/
theorem encrypt_decrypt_spec (aead : AeadCipher) (key : List Nat)
    (hcorrect : ∀ k n m, aead.dec k n (aead.enc k n m) = some m) :
    (∀ nonce_bytes p, NONCE_SIZE ≤ nonce_bytes.length →
      pii_decrypt aead key (pii_encrypt aead key nonce_bytes p) = .ok p) ∧
    (∀ nb1 nb2 p, NONCE_SIZE ≤ nb1.length → NONCE_SIZE ≤ nb2.length →
      nb1.take NONCE_SIZE ≠ nb2.take NONCE_SIZE →
      pii_encrypt aead key nb1 p ≠ pii_encrypt aead key nb2 p) := by
  have htake : ∀ x y : List Nat, x.length = NONCE_SIZE →
      (x ++ y).take NONCE_SIZE = x := by
    intro x y hx
    rw [← hx]
    exact List.take_left x y
  have hdrop : ∀ x y : List Nat, x.length = NONCE_SIZE →
      (x ++ y).drop NONCE_SIZE = y := by
    intro x y hx
    rw [← hx]
    exact List.drop_left x y
  constructor
  · intro nb p hn
    have hlen : (nb.take NONCE_SIZE).length = NONCE_SIZE := by
      simp only [List.length_take]
      omega
    simp only [pii_encrypt, pii_decrypt]
    rw [if_neg (by simp only [List.length_append]; omega)]
    rw [htake _ _ hlen, hdrop _ _ hlen, hcorrect]
  · intro nb1 nb2 p h1 h2 hne heq
    apply hne
    have hl1 : (nb1.take NONCE_SIZE).length = NONCE_SIZE := by
      simp only [List.length_take]
      omega
    have hl2 : (nb2.take NONCE_SIZE).length = NONCE_SIZE := by
      simp only [List.length_take]
      omega
    have hx := congrArg (List.take NONCE_SIZE) heq
    simp only [pii_encrypt] at hx
    rw [htake _ _ hl1, htake _ _ hl2] at hx
    exact hx

/-- Witness for `encrypt_decrypt_spec`: the toy AEAD round-trips a
concrete plaintext under a concrete key and nonce. -/
theorem encrypt_decrypt_spec_witness :
    pii_decrypt toyAead (List.replicate 32 7)
        (pii_encrypt toyAead (List.replicate 32 7) (List.replicate 16 5)
          [1, 2, 3])
      = .ok [1, 2, 3] :=
  (encrypt_decrypt_spec toyAead (List.replicate 32 7)
    (by
      intro k n m
      simp [toyAead])).1
    (List.replicate 16 5) [1, 2, 3] (by decide)

end SovereignPrivacy
